import Mathlib

/-!
Shallow embedding of the Aimmy V2 demonstration server (src/app.py).

The embedded fragments are:
  * the configuration store (`load_configuration`, `save_configuration`),
  * the broadcast loop controller state machine (`start_detection`,
    `stop_detection`) with an explicit count of active loop instances,
  * the per-tick simulation (`simulate_detection`), best-target selection
    (`maxByConfidence`, the model of Python `max(..., key=...)`),
    metrics update (`detection_tick_metrics`) and the emitted payload
    (`detection_data`),
  * the HTTP handlers `processes` (POST), `configuration` (POST/GET) and
    `status`.

Randomness is made explicit: `random.random()` draws become rational
inputs constrained to [0, 1), and `random.randint(a, b)` becomes
`randint a b r` which maps an arbitrary natural draw `r` into [a, b].
Python floats are modelled as rationals; Python integer floor division
`//` on the non-negative box fields is `Nat` division.
-/

namespace Aimmy

/-- Scalar values stored in the configuration dictionary. -/
inductive Val where
  | num (q : ℚ)
  | int (z : ℤ)
  | bool (b : Bool)
  | str (s : String)
deriving DecidableEq

/-- A Python dict of configuration entries, as an association list whose
lookup takes the first matching key. -/
abbrev Dict := List (String × Val)

/-- First-match association lookup, the value semantics of Python dict
indexing on our representation. -/
def lookupKey (k : String) : Dict → Option Val
  | [] => none
  | (k2, v) :: rest => if k = k2 then some v else lookupKey k rest

/-- `save_configuration`: `self.config = {**self.config, **config}` — the
update wins on every key it provides, all other keys keep their value.
With first-match lookup this is the update written in front. -/
def save_configuration (cfg upd : Dict) : Dict := upd ++ cfg

/-- Digit string to number, `none` unless non-empty and all digits. -/
def parseNatDigits (cs : List Char) : Option Nat :=
  if cs.isEmpty then none
  else if cs.all Char.isDigit then
    some (cs.foldl (fun a c => a * 10 + (c.toNat - 48)) 0)
  else none

/-- Unsigned decimal literal (digits, optionally with one dot), as a
rational; the core of what Python `float(s)` accepts. -/
def parseUnsignedFloat (cs : List Char) : Option ℚ :=
  let intPart := cs.takeWhile (fun c => c != '.')
  match cs.dropWhile (fun c => c != '.') with
  | [] => (parseNatDigits intPart).map (fun n => (n : ℚ))
  | _ :: frac =>
    if intPart.isEmpty && frac.isEmpty then none
    else if intPart.all Char.isDigit && frac.all Char.isDigit then
      some ((intPart.foldl (fun a c => a * 10 + (c.toNat - 48)) 0 : ℚ) +
        (frac.foldl (fun a c => a * 10 + (c.toNat - 48)) 0 : ℚ) / 10 ^ frac.length)
    else none

/-- Model of Python `float(s)`: optional sign then an unsigned decimal
literal; fails (raises ValueError) on anything else, e.g. on "abc". -/
def parseFloat (s : String) : Option ℚ :=
  match s.data with
  | '-' :: rest => (parseUnsignedFloat rest).map (fun q => -q)
  | '+' :: rest => parseUnsignedFloat rest
  | cs => parseUnsignedFloat cs

/-- Model of Python `int(s)`: optional sign then digits. -/
def parseInt (s : String) : Option ℤ :=
  match s.data with
  | '-' :: rest => (parseNatDigits rest).map (fun n => -(n : ℤ))
  | '+' :: rest => (parseNatDigits rest).map (fun n => (n : ℤ))
  | cs => (parseNatDigits cs).map (fun n => (n : ℤ))

/-- `float(os.environ.get(key, default))`: the default is already a float,
a provided string must parse or the call raises (modelled as `error`). -/
def getFloat (env : String → Option String) (key : String) (dflt : ℚ) :
    Except String ℚ :=
  match env key with
  | none => Except.ok dflt
  | some s =>
    match parseFloat s with
    | some q => Except.ok q
    | none => Except.error ("could not convert string to float: " ++ s)

/-- `int(os.environ.get(key, default))`, analogously. -/
def getInt (env : String → Option String) (key : String) (dflt : ℤ) :
    Except String ℤ :=
  match env key with
  | none => Except.ok dflt
  | some s =>
    match parseInt s with
    | some z => Except.ok z
    | none => Except.error ("invalid literal for int: " ++ s)

/-- ASCII lowercase of one character, the relevant core of `str.lower`. -/
def lowerChar (c : Char) : Char :=
  if c.isUpper then Char.ofNat (c.toNat + 32) else c

/-- ASCII lowercase of a string, the relevant core of `str.lower()`. -/
def lowerStr (s : String) : String := String.mk (s.data.map lowerChar)

/-- `os.environ.get(key, default).lower() == 'true'`; never fails. -/
def getBool (env : String → Option String) (key dflt : String) : Bool :=
  lowerStr ((env key).getD dflt) == "true"

/-- `os.environ.get(key, default)`; never fails. -/
def getStr (env : String → Option String) (key dflt : String) : String :=
  (env key).getD dflt

/-- `load_configuration`: builds the initial configuration dict; the dict
entries are evaluated in source order, and the first failing numeric
conversion raises (the boolean and string reads cannot fail). -/
def load_configuration (env : String → Option String) : Except String Dict :=
  match getFloat env "CONFIDENCE_THRESHOLD" 0.5 with
  | Except.error e => Except.error e
  | Except.ok confidenceThreshold =>
  match getFloat env "MOUSE_SENSITIVITY" 1.0 with
  | Except.error e => Except.error e
  | Except.ok mouseSensitivity =>
  match getInt env "DETECTION_INTERVAL" 50 with
  | Except.error e => Except.error e
  | Except.ok detectionInterval =>
  match getInt env "FOV" 100 with
  | Except.error e => Except.error e
  | Except.ok fov =>
  match getInt env "SMOOTHING_STRENGTH" 5 with
  | Except.error e => Except.error e
  | Except.ok smoothingStrength =>
  match getInt env "TRIGGER_DELAY" 50 with
  | Except.error e => Except.error e
  | Except.ok triggerDelay =>
  Except.ok [("ConfidenceThreshold", Val.num confidenceThreshold),
             ("MouseSensitivity", Val.num mouseSensitivity),
             ("DetectionInterval", Val.int detectionInterval),
             ("EnableESP", Val.bool (getBool env "ENABLE_ESP" "true")),
             ("EnableAntiRecoil", Val.bool (getBool env "ENABLE_ANTI_RECOIL" "false")),
             ("TargetProcess", Val.str (getStr env "TARGET_PROCESS" "")),
             ("FOV", Val.int fov),
             ("EnableSmoothing", Val.bool (getBool env "ENABLE_SMOOTHING" "true")),
             ("SmoothingStrength", Val.int smoothingStrength),
             ("EnableTriggerBot", Val.bool (getBool env "ENABLE_TRIGGER_BOT" "false")),
             ("TriggerDelay", Val.int triggerDelay),
             ("ModelPath", Val.str (getStr env "MODEL_PATH" "Models/yolov8n.onnx")),
             ("EnableDebugMode", Val.bool (getBool env "ENABLE_DEBUG_MODE" "true"))]

/-- The `DetectionEngine` state: its configuration, the `is_running` flag,
and the number of loop-thread instances currently alive. -/
structure DetectionEngine where
  config : Dict
  is_running : Bool
  activeLoops : Nat
deriving DecidableEq

/-- `start_detection`: refuse when already running; otherwise raise the
flag and spawn one loop thread. Returns `(success, message)` and the
engine state after the call. -/
def start_detection (e : DetectionEngine) : (Bool × String) × DetectionEngine :=
  if e.is_running then
    ((false, "Detection already running"), e)
  else
    ((true, "Detection started successfully"),
     { e with is_running := true, activeLoops := e.activeLoops + 1 })

/-- `stop_detection`: refuse when not running; otherwise lower the flag and
join the loop thread, which exits its `while self.is_running` check. -/
def stop_detection (e : DetectionEngine) : (Bool × String) × DetectionEngine :=
  if e.is_running then
    ((true, "Detection stopped successfully"),
     { e with is_running := false, activeLoops := e.activeLoops - 1 })
  else
    ((false, "Detection not running"), e)

/-- Engine states reachable from a freshly constructed engine
(`__init__`: flag down, no loop) by the operations the server exposes. -/
inductive ReachableEngine : DetectionEngine → Prop where
  | init (cfg : Dict) :
      ReachableEngine { config := cfg, is_running := false, activeLoops := 0 }
  | start (e : DetectionEngine) :
      ReachableEngine e → ReachableEngine (start_detection e).2
  | stop (e : DetectionEngine) :
      ReachableEngine e → ReachableEngine (stop_detection e).2
  | save (e : DetectionEngine) (upd : Dict) :
      ReachableEngine e →
      ReachableEngine { e with config := save_configuration e.config upd }

/-- Bounding box of a simulated detection; all fields are non-negative. -/
structure BoundingBox where
  x : Nat
  y : Nat
  width : Nat
  height : Nat
deriving DecidableEq

/-- A screen point. -/
structure Point where
  x : Nat
  y : Nat
deriving DecidableEq

/-- One simulated detection record. -/
structure Detection where
  label : String
  confidence : ℚ
  bounding_box : BoundingBox
  center : Point
deriving DecidableEq

/-- `random.randint(a, b)`: an arbitrary draw `r` mapped into [a, b]
(both ends inclusive), for `a ≤ b`. -/
def randint (a b r : Nat) : Nat := a + r % (b + 1 - a)

/-- The random draws consumed by one simulated detection record:
one `random.random()` draw for the confidence and four `randint` draws
for the box. -/
structure RecRand where
  conf : ℚ
  xr : Nat
  yr : Nat
  wr : Nat
  hr : Nat

/-- Build one detection record from its draws, as the body of the loop in
`_simulate_detection`: label "person", confidence `0.75 + random()*0.25`,
box from the four `randint` calls, center by integer floor division. -/
def mkDetection (r : RecRand) : Detection :=
  let bb : BoundingBox :=
    { x := randint 100 1400 r.xr
      y := randint 100 800 r.yr
      width := 100 + randint 0 100 r.wr
      height := 150 + randint 0 100 r.hr }
  { label := "person"
    confidence := 0.75 + r.conf * 0.25
    bounding_box := bb
    center := { x := bb.x + bb.width / 2, y := bb.y + bb.height / 2 } }

/-- `_simulate_detection`: with the 30% draw below 0.3, produce
`randint(1, 3)` records from the per-record draw stream; otherwise an
empty batch. -/
def simulate_detection (pDetect : ℚ) (numDraw : Nat) (stream : Nat → RecRand) :
    List Detection :=
  if pDetect < 0.3 then
    (List.range (randint 1 3 numDraw)).map (fun i => mkDetection (stream i))
  else
    []

/-- One step of Python `max(..., key=lambda x: x["confidence"])`: the
current best is replaced only when the candidate is strictly better, so
ties keep the earlier item. -/
def pickBetter (best x : Detection) : Detection :=
  if x.confidence > best.confidence then x else best

/-- Best-target selection in `_detection_loop`: `None` for an empty batch,
otherwise Python `max` by confidence (first maximal record). -/
def maxByConfidence : List Detection → Option Detection
  | [] => none
  | d :: ds => some (ds.foldl pickBetter d)

/-- The cumulative `detection_metrics` dictionary. -/
structure Metrics where
  total_detections : Nat
  last_detection_time : Option String
  average_processing_time : ℚ
  successful_targets : Nat
deriving DecidableEq

/-- The metrics update performed by one tick of `_detection_loop`: add the
batch size, stamp time and processing time; then, when the batch has a
best record whose confidence strictly exceeds the threshold, count one
successful target. -/
def detection_tick_metrics (m : Metrics) (ds : List Detection) (threshold : ℚ)
    (ts : String) (pt : ℚ) : Metrics :=
  let m1 : Metrics :=
    { m with
      total_detections := m.total_detections + ds.length
      last_detection_time := some ts
      average_processing_time := pt }
  match maxByConfidence ds with
  | none => m1
  | some best =>
    if best.confidence > threshold then
      { m1 with successful_targets := m1.successful_targets + 1 }
    else m1

/-- The payload emitted as `detection_update`. -/
structure DetectionData where
  detections : List Detection
  best_target : Option Detection
  processing_time : ℚ
  screenshot_width : Nat
  screenshot_height : Nat
  timestamp : String

/-- Build the `detection_update` payload of one tick. -/
def detection_data (ds : List Detection) (pt : ℚ) (ts : String) : DetectionData :=
  { detections := ds
    best_target := maxByConfidence ds
    processing_time := pt
    screenshot_width := 1920
    screenshot_height := 1080
    timestamp := ts }

/-- JSON values, for the bodies handled by the `processes` route. -/
inductive Json where
  | null
  | bool (b : Bool)
  | num (q : ℚ)
  | str (s : String)
  | arr (xs : List Json)
  | obj (fields : List (String × Json))

/-- Whether a JSON value is an array, i.e. `isinstance(data, list)`. -/
def Json.isArr : Json → Bool
  | Json.arr _ => true
  | _ => false

/-- Everything observable about one POST to `/api/processes`: the stored
list afterwards, the JSON response fields, the HTTP status and the
`bridge_update` event (processes, timestamp, count) if one was emitted. -/
structure ProcessesPostResult where
  stored : List Json
  success : Bool
  message : String
  count : Option Nat
  httpStatus : Nat
  event : Option (List Json × String × Nat)

/-- The POST branch of the `processes` route: a parsed body replaces the
stored list wholesale (empty unless it is a JSON array), the count is
reported and a `bridge_update` is emitted; a body that fails to parse is
caught and answered with status 400, leaving the stored list alone. -/
def processes_post (body : Except String Json) (old : List Json)
    (now : String) : ProcessesPostResult :=
  match body with
  | Except.error e =>
    { stored := old
      success := false
      message := e
      count := none
      httpStatus := 400
      event := none }
  | Except.ok data =>
    let newStored := match data with
      | Json.arr xs => xs
      | _ => []
    { stored := newStored
      success := true
      message := "Processes received successfully"
      count := some newStored.length
      httpStatus := 200
      event := some (newStored, now, newStored.length) }

/-- The GET branch of the `processes` route. -/
def processes_get (stored : List Json) : List Json := stored

/-- The POST branch of the `configuration` route: merge the body into the
engine configuration and report success. -/
def configuration_post (e : DetectionEngine) (body : Dict) :
    DetectionEngine × (Bool × String) :=
  ({ e with config := save_configuration e.config body },
   (true, "Configuration saved successfully"))

/-- The GET branch of the `configuration` route. -/
def configuration_get (e : DetectionEngine) : Dict := e.config

/-- The JSON object returned by `/api/status`. -/
structure StatusResponse where
  is_running : Bool
  metrics : Metrics
  configuration : Dict
  bridge_processes : Nat
  bridge_connected : Bool

/-- The `status` route: engine fields when an engine exists, the fallbacks
`false` and `{}` otherwise; bridge figures from the stored list length. -/
def status_route (engine : Option DetectionEngine) (m : Metrics)
    (bp : List Json) : StatusResponse :=
  { is_running := match engine with
      | some e => e.is_running
      | none => false
    metrics := m
    configuration := match engine with
      | some e => e.config
      | none => []
    bridge_processes := bp.length
    bridge_connected := decide (0 < bp.length) }

/-- An environment whose CONFIDENCE_THRESHOLD is not a numeric literal. -/
def envMalformed : String → Option String := fun k =>
  if k = "CONFIDENCE_THRESHOLD" then some "abc" else none

/-- An environment whose only provided input is a well-formed float. -/
def envWellFormed : String → Option String := fun k =>
  if k = "CONFIDENCE_THRESHOLD" then some "0.8" else none

/-- A concrete detection, used to exercise tie-breaking. -/
def sampleDetA : Detection :=
  { label := "person"
    confidence := 9/10
    bounding_box := { x := 100, y := 100, width := 100, height := 150 }
    center := { x := 150, y := 175 } }

/-- A second concrete detection with the same confidence as the first. -/
def sampleDetB : Detection :=
  { label := "person"
    confidence := 9/10
    bounding_box := { x := 200, y := 200, width := 120, height := 160 }
    center := { x := 260, y := 280 } }

/-! Helper lemmas shared by the claim theorems. -/

/-- First-match lookup across an append: the left dict wins. -/
theorem lookupKey_append (k : String) (a b : Dict) :
    lookupKey k (a ++ b) =
      match lookupKey k a with
      | some v => some v
      | none => lookupKey k b := by
  induction a with
  | nil => simp [lookupKey]
  | cons kv rest ih =>
    obtain ⟨k2, v⟩ := kv
    by_cases h : k = k2 <;> simp [lookupKey, h, ih]

/-- `randint` never goes below its lower end. -/
theorem randint_le_self (a b r : Nat) : a ≤ randint a b r :=
  Nat.le_add_right a _

/-- `randint` never exceeds its upper end when the range is sane. -/
theorem randint_le (a b r : Nat) (h : a ≤ b) : randint a b r ≤ b := by
  have hpos : 0 < b + 1 - a := by omega
  have hm := Nat.mod_lt r hpos
  unfold randint
  omega

/-- In every reachable engine state the number of live loop instances is
one exactly while running and zero otherwise. -/
theorem reachable_activeLoops (e : DetectionEngine) (hr : ReachableEngine e) :
    e.activeLoops = if e.is_running then 1 else 0 := by
  induction hr with
  | init cfg => simp
  | start e' _ ih =>
    by_cases h : e'.is_running
    · simp [start_detection, h] at ih ⊢
      exact ih
    · simp [start_detection, h] at ih ⊢
      exact ih
  | stop e' _ ih =>
    by_cases h : e'.is_running
    · simp [stop_detection, h] at ih ⊢
      omega
    · simp [stop_detection, h] at ih ⊢
      exact ih
  | save e' upd _ ih =>
    simpa using ih

/-- C1: the loop controller is a two-state machine. `start_detection`
called while running fails with "Detection already running" and leaves the
state (flag, loop count, configuration) exactly as it was, so no second
loop is spawned; `stop_detection` called while stopped fails with
"Detection not running" and also leaves the state unchanged; and every
reachable state carries at most one live loop instance. -/
theorem C1_start_stop_error_cases (e : DetectionEngine)
    (hr : ReachableEngine e) :
    (e.is_running = true →
      start_detection e = ((false, "Detection already running"), e)) ∧
    (e.is_running = false →
      stop_detection e = ((false, "Detection not running"), e)) ∧
    e.activeLoops ≤ 1 := by
  refine ⟨fun h => ?_, fun h => ?_, ?_⟩
  · simp [start_detection, h]
  · simp [stop_detection, h]
  · have := reachable_activeLoops e hr
    by_cases h : e.is_running <;> simp [h] at this <;> omega

/-- Witness for C1: a running engine reached by one start call refuses a
second start, returns the failure message, keeps its state, and holds
exactly one live loop. -/
theorem C1_witness :
    ReachableEngine ⟨[], true, 1⟩ ∧
    start_detection ⟨[], true, 1⟩ =
      ((false, "Detection already running"), ⟨[], true, 1⟩) ∧
    stop_detection ⟨[], false, 0⟩ =
      ((false, "Detection not running"), ⟨[], false, 0⟩) ∧
    DetectionEngine.activeLoops ⟨[], true, 1⟩ ≤ 1 := by
  have h0 : ReachableEngine ⟨[], false, 0⟩ := ReachableEngine.init []
  have hr : ReachableEngine ⟨[], true, 1⟩ := by
    have h1 := ReachableEngine.start _ h0
    simpa [start_detection] using h1
  have h := C1_start_stop_error_cases ⟨[], true, 1⟩ hr
  have h' := C1_start_stop_error_cases ⟨[], false, 0⟩ h0
  exact ⟨hr, h.1 rfl, h'.2.1 rfl, h.2.2⟩

/-- C4: configuration update is a key-wise merge. A key present in the
partial update looks up to the updated value, every other key looks up to
its old value, whatever keys (known or unknown) the update carries; in
particular posting ConfidenceThreshold 0.8 and reading the configuration
back gives 0.8 there and the old value everywhere else. -/
theorem C4_configuration_merge (e : DetectionEngine) (upd : Dict) (k : String) :
    (lookupKey k (save_configuration e.config upd) =
      match lookupKey k upd with
      | some v => some v
      | none => lookupKey k e.config) ∧
    (lookupKey k (configuration_get
        (configuration_post e [("ConfidenceThreshold", Val.num 0.8)]).1) =
      if k = "ConfidenceThreshold" then some (Val.num 0.8)
      else lookupKey k (configuration_get e)) := by
  constructor
  · exact lookupKey_append k upd e.config
  · by_cases h : k = "ConfidenceThreshold" <;>
      simp [configuration_post, configuration_get, save_configuration,
        lookupKey, h]

/-- C6: one tick adds the batch size to total_detections, bumps
successful_targets by one exactly when the batch's best record strictly
exceeds the confidence threshold, stamps the last detection time and the
last processing time, and both counters are non-decreasing. -/
theorem C6_metrics_tick (m : Metrics) (ds : List Detection) (th : ℚ)
    (ts : String) (pt : ℚ) :
    (detection_tick_metrics m ds th ts pt).total_detections =
      m.total_detections + ds.length ∧
    (detection_tick_metrics m ds th ts pt).successful_targets =
      m.successful_targets +
        (match maxByConfidence ds with
         | none => 0
         | some b => if b.confidence > th then 1 else 0) ∧
    (detection_tick_metrics m ds th ts pt).last_detection_time = some ts ∧
    (detection_tick_metrics m ds th ts pt).average_processing_time = pt ∧
    m.total_detections ≤ (detection_tick_metrics m ds th ts pt).total_detections ∧
    m.successful_targets ≤
      (detection_tick_metrics m ds th ts pt).successful_targets := by
  unfold detection_tick_metrics
  cases hb : maxByConfidence ds with
  | none => simp
  | some best =>
    by_cases hc : best.confidence > th <;> simp [hc]

/-- C10: `/api/status` reports bridge_connected true exactly when some
process records are stored, bridge_processes as their number, and for a
never-initialized engine falls back to is_running false and an empty
configuration instead of failing. -/
theorem C10_status_route (engine : Option DetectionEngine) (m : Metrics)
    (bp : List Json) :
    ((status_route engine m bp).bridge_connected = true ↔ 0 < bp.length) ∧
    (status_route engine m bp).bridge_processes = bp.length ∧
    (status_route none m bp).is_running = false ∧
    (status_route none m bp).configuration = [] ∧
    (status_route none m bp).metrics = m := by
  refine ⟨?_, rfl, rfl, rfl, rfl⟩
  simp [status_route]

/-- C2: in every batch the simulation produces, each record is labelled
"person" with confidence in [0.75, 1], box position x in [100, 1400] and
y in [100, 800], width in [100, 200], height in [150, 250], and a center
computed from the box fields by floor division; a non-empty batch holds
between 1 and 3 records. The hypothesis states that each
`random.random()` draw lies in [0, 1). -/
theorem C2_simulate_detection_bounds (pDetect : ℚ) (numDraw : Nat)
    (stream : Nat → RecRand)
    (hconf : ∀ i, 0 ≤ (stream i).conf ∧ (stream i).conf < 1) :
    (∀ d ∈ simulate_detection pDetect numDraw stream,
      d.label = "person" ∧
      (0.75 : ℚ) ≤ d.confidence ∧ d.confidence ≤ 1 ∧
      100 ≤ d.bounding_box.x ∧ d.bounding_box.x ≤ 1400 ∧
      100 ≤ d.bounding_box.y ∧ d.bounding_box.y ≤ 800 ∧
      100 ≤ d.bounding_box.width ∧ d.bounding_box.width ≤ 200 ∧
      150 ≤ d.bounding_box.height ∧ d.bounding_box.height ≤ 250 ∧
      d.center.x = d.bounding_box.x + d.bounding_box.width / 2 ∧
      d.center.y = d.bounding_box.y + d.bounding_box.height / 2) ∧
    (simulate_detection pDetect numDraw stream ≠ [] →
      1 ≤ (simulate_detection pDetect numDraw stream).length ∧
      (simulate_detection pDetect numDraw stream).length ≤ 3) := by
  unfold simulate_detection
  by_cases hp : pDetect < 0.3
  · simp only [if_pos hp]
    constructor
    · intro d hd
      rw [List.mem_map] at hd
      obtain ⟨i, _, rfl⟩ := hd
      obtain ⟨hc0, hc1⟩ := hconf i
      refine ⟨rfl, ?_, ?_, ?_, ?_, ?_, ?_, ?_, ?_, ?_, ?_, rfl, rfl⟩
      · have : 0 ≤ (stream i).conf * 0.25 := by positivity
        simp only [mkDetection]
        linarith
      · have : (stream i).conf * 0.25 ≤ 1 * 0.25 := by
          apply mul_le_mul_of_nonneg_right (le_of_lt hc1)
          norm_num
        simp only [mkDetection]
        linarith
      · exact randint_le_self 100 1400 _
      · exact randint_le 100 1400 _ (by omega)
      · exact randint_le_self 100 800 _
      · exact randint_le 100 800 _ (by omega)
      · exact Nat.le_add_right 100 _
      · have := randint_le 0 100 (stream i).wr (by omega)
        simp only [mkDetection]
        omega
      · exact Nat.le_add_right 150 _
      · have := randint_le 0 100 (stream i).hr (by omega)
        simp only [mkDetection]
        omega
    · intro _
      have h1 := randint_le_self 1 3 numDraw
      have h3 := randint_le 1 3 numDraw (by omega)
      simp only [List.length_map, List.length_range]
      omega
  · simp [if_neg hp]

/-- Witness for C2: constant draws at confidence draw 1/2 and a detecting
first draw give a batch whose size lies between 1 and 3. -/
theorem C2_witness :
    (∀ i : Nat, 0 ≤ ((fun _ => RecRand.mk (1/2) 0 0 0 0 : Nat → RecRand) i).conf ∧
      ((fun _ => RecRand.mk (1/2) 0 0 0 0 : Nat → RecRand) i).conf < 1) ∧
    (simulate_detection 0 0 (fun _ => RecRand.mk (1/2) 0 0 0 0) ≠ [] →
      1 ≤ (simulate_detection 0 0 (fun _ => RecRand.mk (1/2) 0 0 0 0)).length ∧
      (simulate_detection 0 0 (fun _ => RecRand.mk (1/2) 0 0 0 0)).length ≤ 3) := by
  have h : ∀ i : Nat,
      0 ≤ ((fun _ => RecRand.mk (1/2) 0 0 0 0 : Nat → RecRand) i).conf ∧
      ((fun _ => RecRand.mk (1/2) 0 0 0 0 : Nat → RecRand) i).conf < 1 := by
    intro i
    constructor <;> norm_num
  exact ⟨h, (C2_simulate_detection_bounds 0 0 _ h).2⟩

/-- Folding `pickBetter` either keeps the accumulator (when nothing in the
list strictly beats it) or lands on an element of the list that strictly
beats the accumulator and everything before it, and is not beaten by
anything after it — Python `max` keeps the first maximum. -/
theorem foldl_pickBetter_spec (ds : List Detection) (acc r : Detection)
    (hr : ds.foldl pickBetter acc = r) :
    (r = acc ∧ ∀ d ∈ ds, d.confidence ≤ acc.confidence) ∨
    (∃ l1 l2, ds = l1 ++ r :: l2 ∧
      acc.confidence < r.confidence ∧
      (∀ d ∈ l1, d.confidence < r.confidence) ∧
      (∀ d ∈ l2, d.confidence ≤ r.confidence)) := by
  induction ds generalizing acc r with
  | nil => exact Or.inl ⟨hr.symm, by simp⟩
  | cons d tl ih =>
    by_cases hc : d.confidence > acc.confidence
    · have hstep : pickBetter acc d = d := by simp [pickBetter, hc]
      have hr' : tl.foldl pickBetter d = r := by
        rw [List.foldl_cons, hstep] at hr
        exact hr
      rcases ih d r hr' with ⟨heq, hall⟩ | ⟨l1, l2, hsplit, hlt, h1, h2⟩
      · refine Or.inr ⟨[], tl, by simp [heq], ?_, by simp, ?_⟩
        · rw [heq]; exact hc
        · intro x hx
          rw [heq]
          exact hall x hx
      · refine Or.inr ⟨d :: l1, l2, by simp [hsplit], lt_trans hc hlt, ?_, h2⟩
        intro x hx
        rcases List.mem_cons.mp hx with rfl | hx1
        · exact hlt
        · exact h1 x hx1
    · push_neg at hc
      have hstep : pickBetter acc d = acc := by
        simp only [pickBetter, if_neg (not_lt.mpr hc)]
      have hr' : tl.foldl pickBetter acc = r := by
        rw [List.foldl_cons, hstep] at hr
        exact hr
      rcases ih acc r hr' with ⟨heq, hall⟩ | ⟨l1, l2, hsplit, hlt, h1, h2⟩
      · refine Or.inl ⟨heq, ?_⟩
        intro x hx
        rcases List.mem_cons.mp hx with rfl | hx1
        · exact hc
        · exact hall x hx1
      · refine Or.inr ⟨d :: l1, l2, by simp [hsplit], hlt, ?_, h2⟩
        intro x hx
        rcases List.mem_cons.mp hx with rfl | hx1
        · exact lt_of_le_of_lt hc hlt
        · exact h1 x hx1

/-- C3: on a non-empty batch the selected best target attains the maximum
confidence of the batch, and everything placed before it in batch order
has strictly smaller confidence — on ties the first record wins. -/
theorem C3_best_target_first_max (ds : List Detection) (h : ds ≠ []) :
    ∃ b, maxByConfidence ds = some b ∧
      (∀ d ∈ ds, d.confidence ≤ b.confidence) ∧
      ∃ l1 l2, ds = l1 ++ b :: l2 ∧
        ∀ d ∈ l1, d.confidence < b.confidence := by
  cases ds with
  | nil => exact absurd rfl h
  | cons d tl =>
    obtain ⟨r, hr⟩ : ∃ r, tl.foldl pickBetter d = r := ⟨_, rfl⟩
    refine ⟨r, by simp [maxByConfidence, hr], ?_, ?_⟩
    · intro x hx
      rcases foldl_pickBetter_spec tl d r hr with ⟨heq, hall⟩ | ⟨l1, l2, hsplit, hlt, h1, h2⟩
      · rw [heq]
        rcases List.mem_cons.mp hx with rfl | hx1
        · exact le_refl _
        · exact hall x hx1
      · rcases List.mem_cons.mp hx with rfl | hx1
        · exact le_of_lt hlt
        · rw [hsplit] at hx1
          rcases List.mem_append.mp hx1 with hx2 | hx2
          · exact le_of_lt (h1 x hx2)
          · rcases List.mem_cons.mp hx2 with rfl | hx3
            · exact le_refl _
            · exact h2 x hx3
    · rcases foldl_pickBetter_spec tl d r hr with ⟨heq, _⟩ | ⟨l1, l2, hsplit, hlt, h1, _⟩
      · exact ⟨[], tl, by simp [heq], by simp⟩
      · refine ⟨d :: l1, l2, by simp [hsplit], ?_⟩
        intro x hx
        rcases List.mem_cons.mp hx with rfl | hx1
        · exact hlt
        · exact h1 x hx1

/-- Witness for C3: on two records of equal confidence the earlier one is
selected, and the theorem applies at that batch. -/
theorem C3_witness :
    (([sampleDetA, sampleDetB] : List Detection) ≠ [] ∧
      ∃ b, maxByConfidence [sampleDetA, sampleDetB] = some b ∧
        (∀ d ∈ [sampleDetA, sampleDetB], d.confidence ≤ b.confidence) ∧
        ∃ l1 l2, [sampleDetA, sampleDetB] = l1 ++ b :: l2 ∧
          ∀ d ∈ l1, d.confidence < b.confidence) ∧
    maxByConfidence [sampleDetA, sampleDetB] = some sampleDetA := by
  refine ⟨⟨by simp, C3_best_target_first_max _ (by simp)⟩, ?_⟩
  simp [maxByConfidence, pickBetter, sampleDetA, sampleDetB]

/-- C8: every emitted detection_update payload has best_target `None`
exactly on an empty batch, and otherwise its best_target is one of the
records of that same batch. -/
theorem C8_best_target_invariant (ds : List Detection) (pt : ℚ) (ts : String) :
    match (detection_data ds pt ts).best_target with
    | none => ds = []
    | some b => b ∈ ds := by
  cases ds with
  | nil => simp [detection_data, maxByConfidence]
  | cons d tl =>
    obtain ⟨r, hr⟩ : ∃ r, tl.foldl pickBetter d = r := ⟨_, rfl⟩
    have hbt : (detection_data (d :: tl) pt ts).best_target = some r := by
      simp [detection_data, maxByConfidence, hr]
    rw [hbt]
    rcases foldl_pickBetter_spec tl d r hr with ⟨heq, _⟩ | ⟨l1, l2, hsplit, _, _, _⟩
    · rw [heq]
      exact List.mem_cons_self d tl
    · rw [hsplit]
      exact List.mem_cons_of_mem d (by simp)

/-- C5: POST `/api/processes` replaces the stored list wholesale with the
posted array (independent of prior contents, so posting l1 then l2 leaves
exactly l2); a non-array body makes the stored list empty yet still
answers success with count 0; the response count is the accepted count and
the bridge_update event carries the records, the timestamp and the count;
an unparseable body answers failure with status 400. -/
theorem C5_processes_replace (old l1 l2 : List Json) (j : Json)
    (e now : String) :
    (processes_post (Except.ok (Json.arr l1)) old now).stored = l1 ∧
    (processes_post (Except.ok (Json.arr l2))
      ((processes_post (Except.ok (Json.arr l1)) old now).stored) now).stored = l2 ∧
    (Json.isArr j = false →
      processes_post (Except.ok j) old now =
        { stored := [], success := true,
          message := "Processes received successfully",
          count := some 0, httpStatus := 200, event := some ([], now, 0) }) ∧
    (processes_post (Except.ok j) old now).count =
      some (processes_post (Except.ok j) old now).stored.length ∧
    (processes_post (Except.ok j) old now).event =
      some ((processes_post (Except.ok j) old now).stored, now,
        (processes_post (Except.ok j) old now).stored.length) ∧
    processes_post (Except.error e) old now =
      { stored := old, success := false, message := e, count := none,
        httpStatus := 400, event := none } := by
  refine ⟨rfl, rfl, ?_, rfl, rfl, rfl⟩
  intro hj
  cases j with
  | arr xs => simp [Json.isArr] at hj
  | null => rfl
  | bool b => rfl
  | num q => rfl
  | str s => rfl
  | obj fields => rfl

/-- Witness for C5: the spec scenario, a non-array body like the object
with field x, empties the stored list and still reports success count 0. -/
theorem C5_witness :
    Json.isArr (Json.obj [("x", Json.num 1)]) = false ∧
    processes_post (Except.ok (Json.obj [("x", Json.num 1)]))
        [Json.num 2] "t" =
      { stored := [], success := true,
        message := "Processes received successfully",
        count := some 0, httpStatus := 200, event := some ([], "t", 0) } := by
  have h := C5_processes_replace [Json.num 2] [] []
    (Json.obj [("x", Json.num 1)]) "err" "t"
  exact ⟨rfl, h.2.2.1 rfl⟩

/-- C9: on every successful POST to `/api/processes` the response count,
the event count and the length of the stored list agree, and the event
carries the stored list itself. -/
theorem C9_counts_agree (body : Except String Json) (old : List Json)
    (now : String) (h : (processes_post body old now).success = true) :
    (processes_post body old now).count =
      some (processes_post body old now).stored.length ∧
    (processes_post body old now).event =
      some ((processes_post body old now).stored, now,
        (processes_post body old now).stored.length) := by
  cases body with
  | error e => simp [processes_post] at h
  | ok data => exact ⟨rfl, rfl⟩

/-- Witness for C9: a concrete one-element array body succeeds and the
three counts agree on it. -/
theorem C9_witness :
    (processes_post (Except.ok (Json.arr [Json.num 1])) [] "t").success = true ∧
    (processes_post (Except.ok (Json.arr [Json.num 1])) [] "t").count =
      some (processes_post (Except.ok (Json.arr [Json.num 1])) [] "t").stored.length ∧
    (processes_post (Except.ok (Json.arr [Json.num 1])) [] "t").event =
      some ((processes_post (Except.ok (Json.arr [Json.num 1])) [] "t").stored, "t",
        (processes_post (Except.ok (Json.arr [Json.num 1])) [] "t").stored.length) := by
  have h := C9_counts_agree (Except.ok (Json.arr [Json.num 1])) [] "t" rfl
  exact ⟨rfl, h⟩

/-- A fallible float read succeeds when the input is absent or parses. -/
theorem getFloat_ok_of (env : String → Option String) (key : String) (dflt : ℚ)
    (h : ∀ s, env key = some s → (parseFloat s).isSome = true) :
    ∃ q, getFloat env key dflt = Except.ok q := by
  cases he : env key with
  | none => exact ⟨dflt, by simp [getFloat, he]⟩
  | some s =>
    have hp := h s he
    cases hps : parseFloat s with
    | none => rw [hps] at hp; simp at hp
    | some q => exact ⟨q, by simp [getFloat, he, hps]⟩

/-- A fallible int read succeeds when the input is absent or parses. -/
theorem getInt_ok_of (env : String → Option String) (key : String) (dflt : ℤ)
    (h : ∀ s, env key = some s → (parseInt s).isSome = true) :
    ∃ z, getInt env key dflt = Except.ok z := by
  cases he : env key with
  | none => exact ⟨dflt, by simp [getInt, he]⟩
  | some s =>
    have hp := h s he
    cases hps : parseInt s with
    | none => rw [hps] at hp; simp at hp
    | some z => exact ⟨z, by simp [getInt, he, hps]⟩

/-- Counterexample for C7: `load_configuration` does fail — a non-numeric
CONFIDENCE_THRESHOLD makes `float(...)` raise instead of falling back to
the default 0.5. -/
theorem C7_counterexample :
    load_configuration envMalformed =
      Except.error "could not convert string to float: abc" := by
  rfl

/-- C7 amended: `load_configuration` succeeds exactly as long as every
provided numeric environment input parses (an absent input uses the
documented default, and the boolean and string inputs never fail); a
malformed numeric input raises an error rather than producing the
default. With no environment inputs at all, the documented defaults are
returned. -/
theorem C7_amended (env : String → Option String)
    (h1 : ∀ s, env "CONFIDENCE_THRESHOLD" = some s → (parseFloat s).isSome = true)
    (h2 : ∀ s, env "MOUSE_SENSITIVITY" = some s → (parseFloat s).isSome = true)
    (h3 : ∀ s, env "DETECTION_INTERVAL" = some s → (parseInt s).isSome = true)
    (h4 : ∀ s, env "FOV" = some s → (parseInt s).isSome = true)
    (h5 : ∀ s, env "SMOOTHING_STRENGTH" = some s → (parseInt s).isSome = true)
    (h6 : ∀ s, env "TRIGGER_DELAY" = some s → (parseInt s).isSome = true) :
    (∃ cfg, load_configuration env = Except.ok cfg) ∧
    load_configuration (fun _ => none) =
      Except.ok [("ConfidenceThreshold", Val.num 0.5),
                 ("MouseSensitivity", Val.num 1.0),
                 ("DetectionInterval", Val.int 50),
                 ("EnableESP", Val.bool true),
                 ("EnableAntiRecoil", Val.bool false),
                 ("TargetProcess", Val.str ""),
                 ("FOV", Val.int 100),
                 ("EnableSmoothing", Val.bool true),
                 ("SmoothingStrength", Val.int 5),
                 ("EnableTriggerBot", Val.bool false),
                 ("TriggerDelay", Val.int 50),
                 ("ModelPath", Val.str "Models/yolov8n.onnx"),
                 ("EnableDebugMode", Val.bool true)] := by
  constructor
  · obtain ⟨q1, e1⟩ := getFloat_ok_of env "CONFIDENCE_THRESHOLD" 0.5 h1
    obtain ⟨q2, e2⟩ := getFloat_ok_of env "MOUSE_SENSITIVITY" 1.0 h2
    obtain ⟨z3, e3⟩ := getInt_ok_of env "DETECTION_INTERVAL" 50 h3
    obtain ⟨z4, e4⟩ := getInt_ok_of env "FOV" 100 h4
    obtain ⟨z5, e5⟩ := getInt_ok_of env "SMOOTHING_STRENGTH" 5 h5
    obtain ⟨z6, e6⟩ := getInt_ok_of env "TRIGGER_DELAY" 50 h6
    simp only [load_configuration, e1, e2, e3, e4, e5, e6]
    exact ⟨_, rfl⟩
  · rfl

/-- Witness for C7 amended: with only a well-formed CONFIDENCE_THRESHOLD
of "0.8" provided, loading succeeds. -/
theorem C7_witness :
    (∀ s, envWellFormed "CONFIDENCE_THRESHOLD" = some s →
      (parseFloat s).isSome = true) ∧
    (∃ cfg, load_configuration envWellFormed = Except.ok cfg) := by
  have h1 : ∀ s, envWellFormed "CONFIDENCE_THRESHOLD" = some s →
      (parseFloat s).isSome = true := by
    intro s hs
    have hs' : s = "0.8" := by
      simpa [envWellFormed] using hs.symm
    rw [hs']
    rfl
  have hnone : ∀ k, k ≠ "CONFIDENCE_THRESHOLD" → envWellFormed k = none := by
    intro k hk
    simp [envWellFormed, hk]
  have h2 : ∀ s, envWellFormed "MOUSE_SENSITIVITY" = some s →
      (parseFloat s).isSome = true := by
    intro s hs
    rw [hnone _ (by decide)] at hs
    exact absurd hs (by simp)
  have h3 : ∀ s, envWellFormed "DETECTION_INTERVAL" = some s →
      (parseInt s).isSome = true := by
    intro s hs
    rw [hnone _ (by decide)] at hs
    exact absurd hs (by simp)
  have h4 : ∀ s, envWellFormed "FOV" = some s →
      (parseInt s).isSome = true := by
    intro s hs
    rw [hnone _ (by decide)] at hs
    exact absurd hs (by simp)
  have h5 : ∀ s, envWellFormed "SMOOTHING_STRENGTH" = some s →
      (parseInt s).isSome = true := by
    intro s hs
    rw [hnone _ (by decide)] at hs
    exact absurd hs (by simp)
  have h6 : ∀ s, envWellFormed "TRIGGER_DELAY" = some s →
      (parseInt s).isSome = true := by
    intro s hs
    rw [hnone _ (by decide)] at hs
    exact absurd hs (by simp)
  exact ⟨h1, (C7_amended envWellFormed h1 h2 h3 h4 h5 h6).1⟩

end Aimmy
